import Mathlib

/-!
# A shallow embedding of the tree-walking interpreter core

This file embeds the core of a tree-walking interpreter for a small
dynamically-typed scripting language (environment model, resolver,
evaluator) and proves properties of it.

Modelling conventions:
* Rust `f64` numbers are modelled as `Int`.  Every program considered here
  computes only with small integers, on which `f64` arithmetic is exact and
  `f64` display coincides with integer display.  (`/` on numbers is
  modelled as exact integer division; no statement proved here touches it.)
* The shared mutable environment graph (`Rc<RefCell<...>>`) is modelled as
  a store: a list of frames addressed by index.  An `Environment` value in
  the source is a frame index here; `Rc` aliasing becomes index aliasing.
  Instance field vectors, which are also shared mutably, get their own
  store.
* Rust `HashMap`s that are only read through `get` are modelled as
  association lists with first-match lookup.
* A Rust `Result<_, String>` error is `RunErr.err`; a Rust `panic!` is
  `RunErr.panicked` (a fatal abort, distinct from a user-level error).
* Recursion through the heap (function calls, while loops, chain walks) is
  made total with an explicit fuel parameter; exhaustion is `RunErr.fuelOut`,
  which no theorem below ever treats as a program behaviour.
-/

/-- Association-list lookup: first pair whose key equals `k` (models
`HashMap::get` and the first-match iteration used on field vectors). -/
def alookup {κ α : Type} [DecidableEq κ] : List (κ × α) → κ → Option α
  | [], _ => none
  | (k2, v) :: rest, k => if k2 = k then some v else alookup rest k

/-- Association-list insert with `HashMap::insert` semantics: overwrite the
existing binding for the key, or append a new one. -/
def ainsert {κ α : Type} [DecidableEq κ] : List (κ × α) → κ → α → List (κ × α)
  | [], k, v => [(k, v)]
  | (k2, v2) :: rest, k, v =>
    if k2 = k then (k, v) :: rest else (k2, v2) :: ainsert rest k v

/-- Replace the element at index `i` of a list, if present. -/
def listModify {α : Type} : List α → Nat → (α → α) → List α
  | [], _, _ => []
  | x :: rest, 0, f => f x :: rest
  | x :: rest, i + 1, f => x :: listModify rest i f

/-- Integer rendering; agrees with Rust `f64` display on exact integers. -/
def numToString (x : Int) : String := toString x

/-- The operator token kinds consumed by the evaluator. -/
inductive TokenType where
  | Minus | Plus | Slash | Star
  | Bang | BangEqual | EqualEqual
  | Greater | GreaterEqual | Less | LessEqual
  | And | Or
  deriving DecidableEq, Repr

/-- Rust `{:?}` rendering of a `TokenType`. -/
def TokenType.debugString : TokenType → String
  | .Minus => "Minus" | .Plus => "Plus" | .Slash => "Slash" | .Star => "Star"
  | .Bang => "Bang" | .BangEqual => "BangEqual" | .EqualEqual => "EqualEqual"
  | .Greater => "Greater" | .GreaterEqual => "GreaterEqual"
  | .Less => "Less" | .LessEqual => "LessEqual"
  | .And => "And" | .Or => "Or"

mutual

/-- Runtime values (`expr.rs`, `enum Literal`).  `Str` is the source's
`String` variant; `Instance.fields` is an index into the instance-field
store (the `Rc<RefCell<Vec<(String, Literal)>>>` of the source). -/
inductive Literal where
  | Number (x : Int)
  | Str (s : String)
  | True
  | False
  | Nil
  | Callable (c : CallableImpl)
  | Class (name : String) (methods : List (String × FunctionImpl))
      (superclass : Option Literal)
  | Instance (cls : Literal) (fields : Nat)

/-- `expr.rs`, `enum CallableImpl`.  The only native function in the source
is `clock`, whose host closure is time-dependent; natives are therefore
carried as name/arity only. -/
inductive CallableImpl where
  | Function (f : FunctionImpl)
  | NativeFunction (name : String) (arity : Nat)

/-- `expr.rs`, `struct FunctionImpl`.  `parent_env` is the captured
defining environment (a frame index here). -/
inductive FunctionImpl where
  | mk (name : String) (arity : Nat) (parent_env : Nat)
      (params : List String) (body : List Stmt)

/-- `expr.rs`, `enum Expr`.  Tokens are reduced to the data the evaluator
reads from them: the identifier name, or the operator kind.  `LiteralE` is
the source's `Expr::Literal` variant. -/
inductive Expr where
  | AnonFunction (id : Nat) (arguments : List String) (body : List Stmt)
  | Assign (id : Nat) (name : String) (value : Expr)
  | Binary (id : Nat) (left : Expr) (operator : TokenType) (right : Expr)
  | Call (id : Nat) (callee : Expr) (arguments : List Expr)
  | Get (id : Nat) (object : Expr) (name : String)
  | Grouping (id : Nat) (expression : Expr)
  | LiteralE (id : Nat) (value : Literal)
  | Logical (id : Nat) (left : Expr) (operator : TokenType) (right : Expr)
  | Set (id : Nat) (object : Expr) (name : String) (value : Expr)
  | Super (id : Nat) (method : String)
  | This (id : Nat)
  | Unary (id : Nat) (operator : TokenType) (right : Expr)
  | Variable (id : Nat) (name : String)

/-- `stmt.rs`, `enum Stmt` (with the `superclass` field of `Class` and the
`arguments` field of `Print` that the interpreter and resolver consume —
the checked-in `stmt.rs` lags the statement enum those two files match
on). -/
inductive Stmt where
  | Expression (expression : Expr)
  | Print (expression : Expr) (arguments : List Expr)
  | Var (name : String) (initializer : Expr)
  | Block (statements : List Stmt)
  | IfStmt (condition : Expr) (then_branch : Stmt) (else_branch : Option Stmt)
  | WhileStmt (condition : Expr) (body : Stmt)
  | Function (name : String) (params : List String) (body : List Stmt)
  | ReturnStmt (value : Option Expr)
  | Class (name : String) (methods : List Stmt) (superclass : Option Expr)

end

def FunctionImpl.name : FunctionImpl → String
  | .mk n _ _ _ _ => n

def FunctionImpl.arity : FunctionImpl → Nat
  | .mk _ a _ _ _ => a

def FunctionImpl.parent_env : FunctionImpl → Nat
  | .mk _ _ e _ _ => e

def FunctionImpl.params : FunctionImpl → List String
  | .mk _ _ _ p _ => p

def FunctionImpl.body : FunctionImpl → List Stmt
  | .mk _ _ _ _ b => b

/-- Replace the captured environment of a function value
(`callable_impl.parent_env = new_env` in the source). -/
def FunctionImpl.withEnv : FunctionImpl → Nat → FunctionImpl
  | .mk n a _ p b, e => .mk n a e p b

/-- The `class_name!` macro: the name of a `Class` value (panics otherwise
in the source; unreachable there, rendered as a marker string here). -/
def classNameOf : Literal → String
  | .Class n _ _ => n
  | _ => "Unreachable"

/-- `Literal::to_string` (`expr.rs`). -/
def Literal.toStr : Literal → String
  | .Number x => numToString x
  | .Str x => x
  | .True => "true"
  | .False => "false"
  | .Nil => "nil"
  | .Class n _ _ => "Class " ++ "'" ++ n ++ "'"
  | .Callable (.Function f) => f.name ++ "/" ++ toString f.arity
  | .Callable (.NativeFunction n a) => n ++ "/" ++ toString a
  | .Instance cls _ => "Instance of " ++ "'" ++ classNameOf cls ++ "'"

/-- `Literal::to_type` (`expr.rs`). -/
def Literal.to_type : Literal → String
  | .Number _ => "Number"
  | .Str _ => "String"
  | .Callable _ => "Callable"
  | .True => "Boolean"
  | .False => "Boolean"
  | .Nil => "Nil"
  | .Class _ _ _ => "Class"
  | .Instance _ _ => "Instance"

/-- `PartialEq for Literal` (`expr.rs`): numbers and strings by value,
callables by name and arity, the unit values by tag; every other pair —
including any pair involving a `Class` or an `Instance` — is unequal. -/
def literalEq : Literal → Literal → Bool
  | .Number x, .Number y => x == y
  | .Callable (.Function f), .Callable (.Function g) =>
      f.name == g.name && f.arity == g.arity
  | .Callable (.NativeFunction n a), .Callable (.NativeFunction n2 a2) =>
      n == n2 && a == a2
  | .Str x, .Str y => x == y
  | .True, .True => true
  | .False, .False => true
  | .Nil, .Nil => true
  | _, _ => false

/-- `Literal::from_bool` (`expr.rs`). -/
def Literal.from_bool (b : Bool) : Literal :=
  if b then Literal.True else Literal.False

/-- Errors of a run: a user-level `Result::Err`, a Rust `panic!` (fatal,
non-recoverable abort), or fuel exhaustion of the embedding. -/
inductive RunErr where
  | err (msg : String)
  | panicked (msg : String)
  | fuelOut
  deriving DecidableEq, Repr

/-- `Literal::is_falsey` (`expr.rs`): the value of unary `!`.  Number 0 and
the empty string are falsey; `Nil` answers `False` (not-falsey); truth
values follow their literal sense; classes, instances and callables panic. -/
def Literal.is_falsey : Literal → Except RunErr Literal
  | .Number x => .ok (if x = 0 then Literal.True else Literal.False)
  | .Str x => .ok (if x = "" then Literal.True else Literal.False)
  | .True => .ok Literal.False
  | .False => .ok Literal.True
  | .Nil => .ok Literal.False
  | .Class _ _ _ => .error (.panicked "Cannot use class as falsey value")
  | .Instance _ _ => .error (.panicked "Cannot use instance as falsey value")
  | .Callable _ => .error (.panicked "Cannot use callable as falsey value")

/-- `Literal::is_truthy` (`expr.rs`): the affirmative truthiness check used
by `if`, `while`, `and`, `or`.  Number 0 and the empty string are falsey;
`Nil` answers `True` (truthy); classes, instances and callables panic. -/
def Literal.is_truthy : Literal → Except RunErr Literal
  | .Number x => .ok (if x = 0 then Literal.False else Literal.True)
  | .Str x => .ok (if x = "" then Literal.False else Literal.True)
  | .True => .ok Literal.True
  | .False => .ok Literal.False
  | .Nil => .ok Literal.True
  | .Class _ _ _ => .error (.panicked "Cannot use class as truthy value")
  | .Instance _ _ => .error (.panicked "Cannot use instance as truthy value")
  | .Callable _ => .error (.panicked "Cannot use callable as truthy value.")

/-- One scope frame (`environment.rs`, `struct Environment`): its own
bindings plus the index of the enclosing frame.  Frames live in the store
of `State`; the source's `Rc`-shared handle is a store index here. -/
structure Frame where
  values : List (String × Literal)
  enclosing : Option Nat

/-- The mutable heap of a run: the frame store, the instance-field store,
the resolver's distance table (shared by every environment handle via one
`Rc` in the source), and the text printed so far. -/
structure State where
  frames : List Frame
  instFields : List (List (String × Literal))
  locals : List (Nat × Nat)
  output : List String

/-- The global bindings installed by `Environment::new`
(`environment.rs`, `get_globals`): the native `clock` function. -/
def getGlobals : List (String × Literal) :=
  [("clock", Literal.Callable (.NativeFunction "clock" 0))]

/-- The initial state: one root frame holding the globals
(`Environment::new(HashMap::new())` inside `Interpreter::new`). -/
def initialState : State :=
  { frames := [{ values := getGlobals, enclosing := none }]
    instFields := []
    locals := []
    output := [] }

/-- The frame at index `i`, if allocated. -/
def State.frameAt (s : State) (i : Nat) : Option Frame :=
  s.frames.get? i

/-- The binding list of the frame at index `i` (empty for an index that
was never allocated — unreachable in any run considered here). -/
def State.valuesAt (s : State) (i : Nat) : List (String × Literal) :=
  match s.frames.get? i with
  | some f => f.values
  | none => []

/-- The enclosing index of the frame at `i`. -/
def State.enclosingAt (s : State) (i : Nat) : Option Nat :=
  match s.frames.get? i with
  | some f => f.enclosing
  | none => none

/-- The instance-field vector at index `i` of the instance store. -/
def State.instAt (s : State) (i : Nat) : List (String × Literal) :=
  match s.instFields.get? i with
  | some l => l
  | none => []

/-- `Environment::define` (`environment.rs`): bind `name` in the frame at
`env` unconditionally. -/
def envDefine (s : State) (env : Nat) (name : String) (v : Literal) : State :=
  { s with frames :=
      listModify s.frames env (fun f => { f with values := ainsert f.values name v }) }

/-- `Environment::enclose` (`environment.rs`): allocate a fresh empty frame
whose enclosing pointer is `env`; returns the updated store and the new
frame's index. -/
def envEnclose (s : State) (env : Nat) : State × Nat :=
  ({ s with frames := s.frames ++ [{ values := [], enclosing := some env }] },
   s.frames.length)

/-- Allocate a fresh instance-field vector (`Rc::new(RefCell::new(vec![]))`). -/
def allocInstFields (s : State) (fields : List (String × Literal)) : State × Nat :=
  ({ s with instFields := s.instFields ++ [fields] }, s.instFields.length)

/-- Overwrite the instance-field vector at index `i`. -/
def setInstFields (s : State) (i : Nat) (fields : List (String × Literal)) : State :=
  { s with instFields := listModify s.instFields i (fun _ => fields) }

/-- The distance recorded for AST node `id` (`Environment::get_distance`). -/
def State.getDistance (s : State) (id : Nat) : Option Nat :=
  alookup s.locals id

/-- `Environment::get_internal` (`environment.rs`): with a recorded
distance, walk exactly that many enclosing links and read the binding in
that frame only, panicking when asked to walk past the root; with no
distance, walk to the root frame and read there. -/
def getInternal (fuel : Nat) (s : State) (env : Nat) (name : String) :
    Option Nat → Except RunErr (Option Literal)
  | distance =>
    match fuel with
    | 0 => .error .fuelOut
    | fuel + 1 =>
      match s.frameAt env with
      | none => .error (.panicked "dangling frame index")
      | some fr =>
        match distance with
        | some 0 => .ok (alookup fr.values name)
        | some (d + 1) =>
          match fr.enclosing with
          | some e => getInternal fuel s e name (some d)
          | none => .error (.panicked
              "Tried to resolve a variable that was defined deeper than the current environment depth")
        | none =>
          match fr.enclosing with
          | some e => getInternal fuel s e name none
          | none => .ok (alookup fr.values name)

/-- `Environment::get`: look up the distance for the reference's node id,
then `get_internal`. -/
def envGet (fuel : Nat) (s : State) (env : Nat) (name : String) (id : Nat) :
    Except RunErr (Option Literal) :=
  getInternal fuel s env name (s.getDistance id)

/-- `Environment::assign_internal` (`environment.rs`): with a recorded
distance, walk exactly that many links and overwrite in that frame
(panicking past the root, and reporting `true` regardless of the nested
outcome, as the source does); with no distance, walk to the root and
insert there, reporting whether the name was already bound. -/
def assignInternal (fuel : Nat) (s : State) (env : Nat) (name : String) (v : Literal) :
    Option Nat → Except RunErr (Bool × State)
  | distance =>
    match fuel with
    | 0 => .error .fuelOut
    | fuel + 1 =>
      match s.frameAt env with
      | none => .error (.panicked "dangling frame index")
      | some fr =>
        match distance with
        | some 0 =>
          .ok (true, envDefine s env name v)
        | some (d + 1) =>
          match fr.enclosing with
          | some e =>
            match assignInternal fuel s e name v (some d) with
            | .ok (_, s2) => .ok (true, s2)
            | .error e2 => .error e2
          | none => .error (.panicked
              "Tried to resolve a variable that was defined deeper than the current environment depth")
        | none =>
          match fr.enclosing with
          | some e => assignInternal fuel s e name v none
          | none =>
            .ok ((alookup fr.values name).isSome, envDefine s env name v)

/-- `Environment::assign`: distance from the node id, then `assign_internal`. -/
def envAssign (fuel : Nat) (s : State) (env : Nat) (name : String) (v : Literal)
    (id : Nat) : Except RunErr (Bool × State) :=
  assignInternal fuel s env name v (s.getDistance id)

/-- `Environment::assign_global`: a distance-less assignment, which walks
directly to the root frame. -/
def assignGlobal (fuel : Nat) (s : State) (env : Nat) (name : String) (v : Literal) :
    Except RunErr (Bool × State) :=
  assignInternal fuel s env name v none

/-- `resolver.rs`, `enum FunctionType`. -/
inductive FunctionType where
  | None
  | Function
  | Method
  deriving DecidableEq, Repr

/-- `resolver.rs`, `struct Resolver`.  The scope stack is kept with the
innermost (top) scope at the head of the list, so the distance recorded by
`resolve_local` is exactly the head-side index of the first scope
containing the name (in the source the stack grows at the tail and the
distance is `size - 1 - i`; the two presentations coincide). -/
structure ResolverS where
  scopes : List (List (String × Bool))
  current_function : FunctionType
  locals : List (Nat × Nat)

/-- `Resolver::new`. -/
def Resolver.new : ResolverS :=
  { scopes := [], current_function := .None, locals := [] }

/-- `Resolver::begin_scope`: push a fresh empty scope. -/
def Resolver.beginScope (r : ResolverS) : ResolverS :=
  { r with scopes := [] :: r.scopes }

/-- `Resolver::end_scope`: pop the top scope (panics on an empty stack in
the source). -/
def Resolver.endScope (r : ResolverS) : Except String ResolverS :=
  match r.scopes with
  | [] => .error "Stack underflow"
  | _ :: rest => .ok { r with scopes := rest }

/-- `Resolver::declare`: no-op at global scope; otherwise record the name
as declared-but-not-yet-defined (`false`) in the top scope, rejecting a
duplicate declaration in that same scope. -/
def Resolver.declare (r : ResolverS) (name : String) : Except String ResolverS :=
  match r.scopes with
  | [] => .ok r
  | top :: rest =>
    if (alookup top name).isSome then
      .error "Variable with this name already declared"
    else
      .ok { r with scopes := ainsert top name false :: rest }

/-- `Resolver::define`: no-op at global scope; otherwise flip the name's
flag to fully-defined (`true`) in the top scope. -/
def Resolver.define (r : ResolverS) (name : String) : ResolverS :=
  match r.scopes with
  | [] => r
  | top :: rest => { r with scopes := ainsert top name true :: rest }

/-- Inner scan of `Resolver::resolve_local`: index (= distance) of the
first scope, innermost first, containing the name. -/
def Resolver.scanScopes : List (List (String × Bool)) → String → Nat → Option Nat
  | [], _, _ => none
  | sc :: rest, name, j =>
    if (alookup sc name).isSome then some j else Resolver.scanScopes rest name (j + 1)

/-- `Resolver::resolve_local`: record the distance to the innermost scope
containing the name, keyed by the referencing node's id; record nothing
when no scope contains it (the reference is then treated as global). -/
def Resolver.resolveLocal (r : ResolverS) (name : String) (resolve_id : Nat) :
    ResolverS :=
  match Resolver.scanScopes r.scopes name 0 with
  | some d => { r with locals := ainsert r.locals resolve_id d }
  | none => r

mutual

/-- `Resolver::resolve_internal` (`resolver.rs`): dispatch on the statement. -/
def Resolver.resolveInternal (fuel : Nat) (st : Stmt) (r : ResolverS) :
    Except String ResolverS :=
  match fuel with
  | 0 => .error "embedding: out of fuel"
  | fuel + 1 =>
    match st with
    | .Block _ => Resolver.resolveBlock fuel st r
    | .Var _ _ => Resolver.resolveVar fuel st r
    | .Function _ _ _ => Resolver.resolveFunction fuel st .Function r
    | .Expression e => Resolver.resolveExpr fuel e r
    | .IfStmt _ _ _ => Resolver.resolveIfStmt fuel st r
    | .Print _ _ => Resolver.resolvePrint fuel st r
    | .ReturnStmt value =>
      if r.current_function = .None then
        .error "Return statement not allowed outside of a function"
      else
        match value with
        | some v => Resolver.resolveExpr fuel v r
        | none => .ok r
    | .WhileStmt condition body => do
      let r ← Resolver.resolveExpr fuel condition r
      Resolver.resolveInternal fuel body r
    | .Class name methods superclass => do
      let r ←
        match superclass with
        | some superclass_expr => do
          let check : Except String Unit :=
            match superclass_expr with
            | .Variable _ scName =>
              if scName = name then .error "A class cannot inherit from itself"
              else .ok ()
            | _ => .ok ()
          let _ ← check
          let r ← Resolver.resolveExpr fuel superclass_expr r
          let r := Resolver.beginScope r
          match r.scopes with
          | top :: rest => .ok { r with scopes := ainsert top "super" true :: rest }
          | [] => .error "Cannot get last scope"
        | none => .ok r
      let r ← Resolver.declare r name
      let r := Resolver.define r name
      let r := Resolver.beginScope r
      let r ←
        match r.scopes with
        | top :: rest => .ok { r with scopes := ainsert top "this" true :: rest }
        | [] => .error "Cannot read last element of scopes in resolver"
      let r ← Resolver.resolveMethods fuel methods r
      let r ← Resolver.endScope r
      if superclass.isSome then Resolver.endScope r else .ok r

/-- The method loop of the `Class` arm of `resolve_internal`. -/
def Resolver.resolveMethods (fuel : Nat) (methods : List Stmt) (r : ResolverS) :
    Except String ResolverS :=
  match fuel with
  | 0 => .error "embedding: out of fuel"
  | fuel + 1 =>
    match methods with
    | [] => .ok r
    | m :: rest => do
      let r ← Resolver.resolveFunction fuel m .Method r
      Resolver.resolveMethods fuel rest r

/-- `Resolver::resolve_many`: resolve statements in order. -/
def Resolver.resolveMany (fuel : Nat) (stmts : List Stmt) (r : ResolverS) :
    Except String ResolverS :=
  match fuel with
  | 0 => .error "embedding: out of fuel"
  | fuel + 1 =>
    match stmts with
    | [] => .ok r
    | st :: rest => do
      let r ← Resolver.resolveInternal fuel st r
      Resolver.resolveMany fuel rest r

/-- `Resolver::resolve_block`: a fresh scope around the statements. -/
def Resolver.resolveBlock (fuel : Nat) (st : Stmt) (r : ResolverS) :
    Except String ResolverS :=
  match fuel with
  | 0 => .error "embedding: out of fuel"
  | fuel + 1 =>
    match st with
    | .Block statements => do
      let r := Resolver.beginScope r
      let r ← Resolver.resolveMany fuel statements r
      Resolver.endScope r
    | _ => .error "Wrong type"

/-- `Resolver::resolve_var`: declare the name, resolve the initializer
while the name is still not fully defined, then define it. -/
def Resolver.resolveVar (fuel : Nat) (st : Stmt) (r : ResolverS) :
    Except String ResolverS :=
  match fuel with
  | 0 => .error "embedding: out of fuel"
  | fuel + 1 =>
    match st with
    | .Var name initializer => do
      let r ← Resolver.declare r name
      let r ← Resolver.resolveExpr fuel initializer r
      .ok (Resolver.define r name)
    | _ => .error "Wrong type in resolve var"

/-- `Resolver::resolve_expr` (`resolver.rs`). -/
def Resolver.resolveExpr (fuel : Nat) (e : Expr) (r : ResolverS) :
    Except String ResolverS :=
  match fuel with
  | 0 => .error "embedding: out of fuel"
  | fuel + 1 =>
    match e with
    | .Variable id _ => Resolver.resolveExprVar fuel e id r
    | .Assign id _ _ => Resolver.resolveExprAssign fuel e id r
    | .Binary _ left _ right => do
      let r ← Resolver.resolveExpr fuel left r
      Resolver.resolveExpr fuel right r
    | .Call _ callee arguments => do
      let r ← Resolver.resolveExpr fuel callee r
      Resolver.resolveExprList fuel arguments r
    | .Get _ object _ => Resolver.resolveExpr fuel object r
    | .Grouping _ expression => Resolver.resolveExpr fuel expression r
    | .LiteralE _ _ => .ok r
    | .Logical _ left _ right => do
      let r ← Resolver.resolveExpr fuel left r
      Resolver.resolveExpr fuel right r
    | .Unary _ _ right => Resolver.resolveExpr fuel right r
    | .AnonFunction _ arguments body =>
      Resolver.resolveFunctionHelper fuel arguments body .Function r
    | .Set _ object _ value => do
      let r ← Resolver.resolveExpr fuel value r
      Resolver.resolveExpr fuel object r
    | .This id =>
      if r.current_function ≠ .Method then
        .error "Cannot use 'this' keyword outside of a class"
      else
        .ok (Resolver.resolveLocal r "this" id)
    | .Super id _ =>
      if r.current_function ≠ .Method then
        .error "Cannot use 'super' keyword outside of a class"
      else
        let noSuper : Bool :=
          decide (r.scopes.length < 3) ||
            (match r.scopes.get? 2 with
             | some sc => (alookup sc "super").isNone
             | none => true)
        if noSuper then
          .error "Cannot use 'super' keyword in a class with no superclass"
        else
          .ok (Resolver.resolveLocal r "super" id)

/-- The argument loop of the `Call` arm of `resolve_expr`. -/
def Resolver.resolveExprList (fuel : Nat) (es : List Expr) (r : ResolverS) :
    Except String ResolverS :=
  match fuel with
  | 0 => .error "embedding: out of fuel"
  | fuel + 1 =>
    match es with
    | [] => .ok r
    | e :: rest => do
      let r ← Resolver.resolveExpr fuel e r
      Resolver.resolveExprList fuel rest r

/-- `Resolver::resolve_expr_var` (`resolver.rs`): a variable read whose
name is declared-but-not-defined in the innermost scope is a
self-reference-in-initializer error; otherwise record its distance. -/
def Resolver.resolveExprVar (fuel : Nat) (e : Expr) (resolve_id : Nat)
    (r : ResolverS) : Except String ResolverS :=
  match fuel with
  | 0 => .error "embedding: out of fuel"
  | _ + 1 =>
    match e with
    | .Call _ callee _ =>
      match callee with
      | .Variable _ name => .ok (Resolver.resolveLocal r name resolve_id)
      | _ => .error "Wrong type in resolve_expr_var"
    | .Variable _ name =>
      match r.scopes with
      | top :: _ =>
        if alookup top name = some false then
          .error "Can't read local variable on its own initializer"
        else
          .ok (Resolver.resolveLocal r name resolve_id)
      | [] => .ok (Resolver.resolveLocal r name resolve_id)
    | _ => .error "Wrong type in resolve_expr_var"

/-- `Resolver::resolve_function`. -/
def Resolver.resolveFunction (fuel : Nat) (st : Stmt) (fn_type : FunctionType)
    (r : ResolverS) : Except String ResolverS :=
  match fuel with
  | 0 => .error "embedding: out of fuel"
  | fuel + 1 =>
    match st with
    | .Function name params body => do
      let r ← Resolver.declare r name
      let r := Resolver.define r name
      Resolver.resolveFunctionHelper fuel params body fn_type r
    | _ => .error "Wrong type in resolve function"

/-- `Resolver::resolve_function_helper`: set the current function kind,
open a scope, declare and define each parameter, resolve the body, close
the scope and restore the function kind. -/
def Resolver.resolveFunctionHelper (fuel : Nat) (params : List String)
    (body : List Stmt) (resolving_function : FunctionType) (r : ResolverS) :
    Except String ResolverS :=
  match fuel with
  | 0 => .error "embedding: out of fuel"
  | fuel + 1 => do
    let enclosing_function := r.current_function
    let r := { r with current_function := resolving_function }
    let r := Resolver.beginScope r
    let r ← Resolver.declareParams params r
    let r ← Resolver.resolveMany fuel body r
    let r ← Resolver.endScope r
    .ok { r with current_function := enclosing_function }

/-- The parameter loop of `resolve_function_helper`. -/
def Resolver.declareParams (params : List String) (r : ResolverS) :
    Except String ResolverS :=
  match params with
  | [] => .ok r
  | p :: rest => do
    let r ← Resolver.declare r p
    Resolver.declareParams rest (Resolver.define r p)

/-- `Resolver::resolve_print`. -/
def Resolver.resolvePrint (fuel : Nat) (st : Stmt) (r : ResolverS) :
    Except String ResolverS :=
  match fuel with
  | 0 => .error "embedding: out of fuel"
  | fuel + 1 =>
    match st with
    | .Print expression arguments => do
      let r ← Resolver.resolveExpr fuel expression r
      Resolver.resolveExprList fuel arguments r
    | _ => .error "Wrong type in resolve print"

/-- `Resolver::resolve_if_stmt`. -/
def Resolver.resolveIfStmt (fuel : Nat) (st : Stmt) (r : ResolverS) :
    Except String ResolverS :=
  match fuel with
  | 0 => .error "embedding: out of fuel"
  | fuel + 1 =>
    match st with
    | .IfStmt condition then_branch else_branch => do
      let r ← Resolver.resolveExpr fuel condition r
      let r ← Resolver.resolveInternal fuel then_branch r
      match else_branch with
      | some eb => Resolver.resolveInternal fuel eb r
      | none => .ok r
    | _ => .error "Wrong type in resolve if stmt"

/-- `Resolver::resolve_expr_assign`: resolve the assigned value, then the
distance of the target name. -/
def Resolver.resolveExprAssign (fuel : Nat) (e : Expr) (resolve_id : Nat)
    (r : ResolverS) : Except String ResolverS :=
  match fuel with
  | 0 => .error "embedding: out of fuel"
  | fuel + 1 =>
    match e with
    | .Assign _ name value => do
      let r ← Resolver.resolveExpr fuel value r
      .ok (Resolver.resolveLocal r name resolve_id)
    | _ => .error "Wrong type in resolve assign"

end

/-- `Resolver::resolve` on a fresh resolver: the distance table of a
program (`resolver.rs` `resolve`, as called from the entry point). -/
def resolveProgram (fuel : Nat) (stmts : List Stmt) :
    Except String (List (Nat × Nat)) :=
  (Resolver.resolveMany fuel stmts Resolver.new).map (fun r => r.locals)

/-- Lexicographic order on character lists by scalar value: Rust `String`
ordering (byte-wise lexicographic, which coincides with scalar-value order
on the ASCII programs considered here). -/
def charListLt : List Char → List Char → Bool
  | _, [] => false
  | [], _ :: _ => true
  | a :: as2, b :: bs =>
    if a.toNat < b.toNat then true
    else if b.toNat < a.toNat then false
    else charListLt as2 bs

/-- Rust `{:?}` rendering of an `Option<usize>` (used in the
undefined-variable message). -/
def debugOptNat : Option Nat → String
  | none => "None"
  | some d => "Some(" ++ toString d ++ ")"

/-- Helper for `replacen`: replace the first occurrence of `pat` in the
list, reporting `none` when the pattern does not occur. -/
def replaceFirstAux (pat rep : List Char) : List Char → Option (List Char)
  | [] => if pat.isEmpty then some rep else none
  | c :: cs =>
    if pat.isPrefixOf (c :: cs) then some (rep ++ (c :: cs).drop pat.length)
    else
      match replaceFirstAux pat rep cs with
      | some res => some (c :: res)
      | none => none

/-- Rust `str::replacen(pat, rep, 1)`: replace the first occurrence of
`pat`, or return the string unchanged when `pat` does not occur. -/
def strReplaceFirst (s pat rep : String) : String :=
  match replaceFirstAux pat.data rep.data s.data with
  | some cs => ⟨cs⟩
  | none => s

/-- The binary-operator table of `Expr::evaluate` (`expr.rs`, the match on
`(left, operator.token_type, right)`), arm for arm in source order. -/
def evalBinaryOp (l : Literal) (op : TokenType) (r : Literal) :
    Except RunErr Literal :=
  match l, op, r with
  | .Number a, .Minus, .Number b => .ok (.Number (a - b))
  | .Number a, .Slash, .Number b => .ok (.Number (a / b))
  | .Number a, .Star, .Number b => .ok (.Number (a * b))
  | .Number a, .Plus, .Number b => .ok (.Number (a + b))
  | .Str a, .Plus, .Str b => .ok (.Str (a ++ b))
  | .Number a, .Plus, .Str b => .ok (.Str (numToString a ++ b))
  | .Str a, .Plus, .Number b => .ok (.Str (a ++ numToString b))
  | .Number a, .Greater, .Number b => .ok (Literal.from_bool (decide (a > b)))
  | .Number a, .GreaterEqual, .Number b => .ok (Literal.from_bool (decide (a ≥ b)))
  | .Number a, .Less, .Number b => .ok (Literal.from_bool (decide (a < b)))
  | .Number a, .LessEqual, .Number b => .ok (Literal.from_bool (decide (a ≤ b)))
  | .Str a, .Greater, .Str b => .ok (Literal.from_bool (charListLt b.data a.data))
  | .Str a, .GreaterEqual, .Str b => .ok (Literal.from_bool (!charListLt a.data b.data))
  | .Str a, .Less, .Str b => .ok (Literal.from_bool (charListLt a.data b.data))
  | .Str a, .LessEqual, .Str b => .ok (Literal.from_bool (!charListLt b.data a.data))
  | lv, .EqualEqual, rv => .ok (Literal.from_bool (literalEq lv rv))
  | lv, .BangEqual, rv => .ok (Literal.from_bool (!literalEq lv rv))
  | .Str _, opx, .Number _ =>
    .error (.err (opx.debugString ++ " is not defined for string and number"))
  | .Number _, opx, .Str _ =>
    .error (.err (opx.debugString ++ " is not defined for number and string"))
  | lv, t, rv =>
    .error (.err (t.debugString ++ " is not implemented for operands "
      ++ lv.toStr ++ " " ++ rv.toStr))

/-- The field-write loop of the `Set` branch (`expr.rs`): overwrite the
value at the first index whose name matches, otherwise push a new pair at
the end. -/
def setField : List (String × Literal) → String → Literal → List (String × Literal)
  | [], name, v => [(name, v)]
  | (k, w) :: rest, name, v =>
    if k = name then (k, v) :: rest else (k, w) :: setField rest name v

/-- The call-local interpreter state (`interpreter.rs`,
`struct Interpreter`): the `specials` slot (holding the pending return
value under the key `return`) and the current environment. -/
structure Interp where
  specials : List (String × Literal)
  env : Nat

/-- `Interpreter::make_function` (`interpreter.rs`): build a function value
whose captured `parent_env` is the interpreter's *current* environment;
panics on a non-function statement. -/
def makeFunction (env : Nat) (fn_stmt : Stmt) : Except RunErr FunctionImpl :=
  match fn_stmt with
  | .Function name params body => .ok (.mk name params.length env params body)
  | _ => .error (.panicked "Tried to make a function from a non-function statement")

/-- The parameter-binding loop of `run_function` (`expr.rs`): define the
i-th parameter name to the i-th evaluated argument in the fresh call
frame; the source's `params.get(i).unwrap()` panics when there are more
arguments than parameter names. -/
def bindParams (s : State) (env : Nat) : List String → List Literal →
    Except RunErr State
  | _, [] => .ok s
  | p :: ps, v :: vs => bindParams (envDefine s env p v) env ps vs
  | [], _ :: _ => .error (.panicked "called Option.unwrap on a None value")

/-- The method-table loop of the `Class` arm of `Interpreter::interpret`:
each method statement becomes a function value capturing `env` (the
class's method-building frame); a non-function panics. -/
def buildMethods (env : Nat) : List Stmt → List (String × FunctionImpl) →
    Except RunErr (List (String × FunctionImpl))
  | [], acc => .ok acc
  | m :: rest, acc =>
    match m with
    | .Function name params body =>
      buildMethods env rest (ainsert acc name (.mk name params.length env params body))
    | _ => .error (.panicked "Something that was not a function was in the methods of a class")

/-- `clock` is the only native function; its host closure reads the wall
clock, which is outside this embedding, so native application is modelled
as a constant.  No theorem in this file applies a native function. -/
def nativeCall (_name : String) (_args : List Literal) : Literal :=
  Literal.Number 0

/-- Modelled from the spec: `Environment::get_this_instance` is called by
the `Super` branch of the evaluator but is absent from the environment
source provided (only its caller appears).  Per the spec, `super.method()`
binds the *current* `this`, looked up via its own distance; the `this`
binding sits one scope inside the `super` scope, so the lookup walks one
link fewer than the super-expression's recorded distance. -/
def getThisInstance (fuel : Nat) (s : State) (env : Nat) (id : Nat) :
    Except RunErr (Option Literal) :=
  getInternal fuel s env "this"
    (match s.getDistance id with
     | some d => some (d - 1)
     | none => none)

mutual

/-- `Expr::evaluate` (`expr.rs`): evaluate an expression against the frame
`env`, threading the store and producing a value or an error. -/
def evaluate (fuel : Nat) (e : Expr) (env : Nat) (s : State) :
    State × Except RunErr Literal :=
  match fuel with
  | 0 => (s, .error .fuelOut)
  | fuel + 1 =>
    match e with
    | .AnonFunction _ arguments body =>
      (s, .ok (.Callable (.Function (.mk "anon_function" arguments.length env arguments body))))
    | .Get _ object name =>
      match evaluate fuel object env s with
      | (s1, .error e2) => (s1, .error e2)
      | (s1, .ok obj_value) =>
        match obj_value with
        | .Instance cls fieldsIdx =>
          match alookup (s1.instAt fieldsIdx) name with
          | some v => (s1, .ok v)
          | none =>
            match cls with
            | .Class _ methods superclass =>
              match alookup methods name with
              | some m =>
                let (s2, new_env) := envEnclose s1 m.parent_env
                let s3 := envDefine s2 new_env "this" obj_value
                (s3, .ok (.Callable (.Function (m.withEnv new_env))))
              | none =>
                match superclass with
                | some (.Class _ smethods _) =>
                  match alookup smethods name with
                  | some m =>
                    let (s2, new_env) := envEnclose s1 m.parent_env
                    let s3 := envDefine s2 new_env "this" obj_value
                    (s3, .ok (.Callable (.Function (m.withEnv new_env))))
                  | none => (s1, .error (.err ("No field named '" ++ name ++ "' on this instance")))
                | some _ => (s1, .error (.err ("No field named '" ++ name ++ "' on this instance")))
                | none => (s1, .error (.err ("No field named '" ++ name ++ "' on this instance")))
            | _ => (s1, .error (.panicked "The class field on an instance was not a Class"))
        | _ => (s1, .error (.err ("Cannot access property on type '" ++ obj_value.toStr ++ "'")))
    | .Set _ object name value =>
      match evaluate fuel object env s with
      | (s1, .error e2) => (s1, .error e2)
      | (s1, .ok obj_value) =>
        match obj_value with
        | .Instance _ fieldsIdx =>
          match evaluate fuel value env s1 with
          | (s2, .error e2) => (s2, .error e2)
          | (s2, .ok v) =>
            (setInstFields s2 fieldsIdx (setField (s2.instAt fieldsIdx) name v),
             .ok Literal.Nil)
        | _ => (s1, .error (.err ("Cannot access property on type '" ++ obj_value.toStr ++ "'")))
    | .Grouping _ expression => evaluate fuel expression env s
    | .LiteralE _ value => (s, .ok value)
    | .Variable id name =>
      match envGet fuel s env name id with
      | .error e2 => (s, .error e2)
      | .ok (some v) => (s, .ok v)
      | .ok none =>
        (s, .error (.err ("Undefined variable '" ++ name ++ "' at distance "
          ++ debugOptNat (s.getDistance id))))
    | .Assign id name value =>
      match evaluate fuel value env s with
      | (s1, .error e2) => (s1, .error e2)
      | (s1, .ok new_value) =>
        match envAssign fuel s1 env name new_value id with
        | .error e2 => (s1, .error e2)
        | .ok (true, s2) => (s2, .ok new_value)
        | .ok (false, s2) =>
          (s2, .error (.err ("Variable " ++ name ++ " was not declared")))
    | .Unary _ operator right =>
      match evaluate fuel right env s with
      | (s1, .error e2) => (s1, .error e2)
      | (s1, .ok rv) =>
        match rv, operator with
        | .Number x, .Minus => (s1, .ok (.Number (-x)))
        | _, .Minus => (s1, .error (.err ("Minus not implemented for " ++ rv.toStr)))
        | anyv, .Bang => (s1, anyv.is_falsey)
        | _, t => (s1, .error (.err (t.debugString ++ " is not a valid unary operator")))
    | .Call _ callee arguments =>
      match evaluate fuel callee env s with
      | (s1, .error e2) => (s1, .error e2)
      | (s1, .ok callable) =>
        match callable with
        | .Callable (.Function fn) => runFunction fuel fn arguments env s1
        | .Callable (.NativeFunction nm _) =>
          match evalList fuel arguments env s1 with
          | (s2, .error e2) => (s2, .error e2)
          | (s2, .ok vals) => (s2, .ok (nativeCall nm vals))
        | .Class _ methods _ =>
          let (s2, fieldsIdx) := allocInstFields s1 []
          let inst := Literal.Instance callable fieldsIdx
          match alookup methods "init" with
          | some constructor =>
            if constructor.arity ≠ arguments.length then
              (s2, .error (.err "Invalid number of arguments in constructor"))
            else
              let (s3, ctorEnv) := envEnclose s2 constructor.parent_env
              let s4 := envDefine s3 ctorEnv "this" inst
              match runFunction fuel (constructor.withEnv ctorEnv) arguments env s4 with
              | (s5, .error e2) => (s5, .error e2)
              | (s5, .ok _) => (s5, .ok inst)
          | none => (s2, .ok inst)
        | other => (s1, .error (.err (other.toStr ++ " is not callable")))
    | .Logical _ left operator right =>
      match operator with
      | .Or =>
        match evaluate fuel left env s with
        | (s1, .error e2) => (s1, .error e2)
        | (s1, .ok left_value) =>
          match left_value.is_truthy with
          | .error e2 => (s1, .error e2)
          | .ok left_true =>
            if literalEq left_true Literal.True then (s1, .ok left_value)
            else evaluate fuel right env s1
      | .And =>
        match evaluate fuel left env s with
        | (s1, .error e2) => (s1, .error e2)
        | (s1, .ok left_value) =>
          match left_value.is_truthy with
          | .error e2 => (s1, .error e2)
          | .ok left_true =>
            if literalEq left_true Literal.False then (s1, .ok Literal.False)
            else evaluate fuel right env s1
      | t =>
        (s, .error (.err ("Invalid token in logical expression: " ++ t.debugString)))
    | .This id =>
      match envGet fuel s env "this" id with
      | .error e2 => (s, .error e2)
      | .ok (some v) => (s, .ok v)
      | .ok none => (s, .error (.panicked "Couldn't look up 'this'"))
    | .Binary _ left operator right =>
      match evaluate fuel left env s with
      | (s1, .error e2) => (s1, .error e2)
      | (s1, .ok lv) =>
        match evaluate fuel right env s1 with
        | (s2, .error e2) => (s2, .error e2)
        | (s2, .ok rv) => (s2, evalBinaryOp lv operator rv)
    | .Super id method =>
      match envGet fuel s env "super" id with
      | .error e2 => (s, .error e2)
      | .ok none => (s, .error (.panicked "Couldn't lookup 'super'"))
      | .ok (some superclass) =>
        match getThisInstance fuel s env id with
        | .error e2 => (s, .error e2)
        | .ok none => (s, .error (.panicked "Couldn't lookup 'this'"))
        | .ok (some inst) =>
          match superclass with
          | .Class _ methods _ =>
            match alookup methods method with
            | some m =>
              let (s2, new_env) := envEnclose s m.parent_env
              let s3 := envDefine s2 new_env "this" inst
              (s3, .ok (.Callable (.Function (m.withEnv new_env))))
            | none => (s, .error (.err ("Method " ++ method ++ " not found")))
          | _ => (s, .error (.panicked "The superclass field of a class should be a class"))

/-- Left-to-right evaluation of an expression list (the argument loops of
`run_function` and of native calls). -/
def evalList (fuel : Nat) (es : List Expr) (env : Nat) (s : State) :
    State × Except RunErr (List Literal) :=
  match fuel with
  | 0 => (s, .error .fuelOut)
  | fuel + 1 =>
    match es with
    | [] => (s, .ok [])
    | e :: rest =>
      match evaluate fuel e env s with
      | (s1, .error e2) => (s1, .error e2)
      | (s1, .ok v) =>
        match evalList fuel rest env s1 with
        | (s2, .error e2) => (s2, .error e2)
        | (s2, .ok vs) => (s2, .ok (v :: vs))

/-- `run_function` (`expr.rs`): check arity, evaluate the arguments in the
caller's environment, open a fresh frame enclosing the function's
*captured* environment, bind the parameters there, and run the body with a
fresh call-local interpreter. -/
def runFunction (fuel : Nat) (fn : FunctionImpl) (arguments : List Expr)
    (eval_env : Nat) (s : State) : State × Except RunErr Literal :=
  match fuel with
  | 0 => (s, .error .fuelOut)
  | fuel + 1 =>
    if arguments.length ≠ fn.arity then
      (s, .error (.err ("Callable " ++ fn.name ++ " expected " ++ toString fn.arity
        ++ " arguments but got " ++ toString arguments.length)))
    else
      match evalList fuel arguments eval_env s with
      | (s1, .error e2) => (s1, .error e2)
      | (s1, .ok args_val) =>
        let (s2, fun_env) := envEnclose s1 fn.parent_env
        match bindParams s2 fun_env fn.params args_val with
        | .error e2 => (s2, .error e2)
        | .ok s3 => runBody fuel fn.body { specials := [], env := fun_env } s3

/-- The body loop of `run_function` (`expr.rs`): execute the body
statements one at a time, and after each one consult the `return` slot of
the call-local `specials`; the first pending value short-circuits the
remaining *top-level* body statements and becomes the call's value; if the
loop finishes with no pending value the call yields Nil. -/
def runBody (fuel : Nat) (body : List Stmt) (int : Interp) (s : State) :
    State × Except RunErr Literal :=
  match fuel with
  | 0 => (s, .error .fuelOut)
  | fuel + 1 =>
    match body with
    | [] => (s, .ok Literal.Nil)
    | st :: rest =>
      match interpretStmt fuel st int s with
      | (s1, _, .error e2) => (s1, .error e2)
      | (s1, int1, .ok _) =>
        match alookup int1.specials "return" with
        | some v => (s1, .ok v)
        | none => runBody fuel rest int1 s1

/-- One statement of `Interpreter::interpret` (`interpreter.rs`). -/
def interpretStmt (fuel : Nat) (st : Stmt) (int : Interp) (s : State) :
    State × Interp × Except RunErr Unit :=
  match fuel with
  | 0 => (s, int, .error .fuelOut)
  | fuel + 1 =>
    match st with
    | .Expression expression =>
      match evaluate fuel expression int.env s with
      | (s1, .error e2) => (s1, int, .error e2)
      | (s1, .ok _) => (s1, int, .ok ())
    | .Print expression arguments =>
      match evaluate fuel expression int.env s with
      | (s1, .error e2) => (s1, int, .error e2)
      | (s1, .ok value) =>
        match evalList fuel arguments.reverse int.env s1 with
        | (s2, .error e2) => (s2, int, .error e2)
        | (s2, .ok revVals) =>
          let str := revVals.reverse.foldl
            (fun acc v => strReplaceFirst acc "\x7b\x7d" v.toStr) value.toStr
          ({ s2 with output := s2.output ++ [str] }, int, .ok ())
    | .Var name initializer =>
      match evaluate fuel initializer int.env s with
      | (s1, .error e2) => (s1, int, .error e2)
      | (s1, .ok value) => (envDefine s1 int.env name value, int, .ok ())
    | .Block statements =>
      let (s1, new_env) := envEnclose s int.env
      match interpretList fuel statements { int with env := new_env } s1 with
      | (s2, int2, res) => (s2, { int2 with env := int.env }, res)
    | .IfStmt condition then_branch else_branch =>
      match evaluate fuel condition int.env s with
      | (s1, .error e2) => (s1, int, .error e2)
      | (s1, .ok truth_value) =>
        match truth_value.is_truthy with
        | .error e2 => (s1, int, .error e2)
        | .ok tl =>
          if literalEq tl Literal.True then interpretStmt fuel then_branch int s1
          else
            match else_branch with
            | some else_stmt => interpretStmt fuel else_stmt int s1
            | none => (s1, int, .ok ())
    | .WhileStmt condition body =>
      match evaluate fuel condition int.env s with
      | (s1, .error e2) => (s1, int, .error e2)
      | (s1, .ok flag) =>
        match flag.is_truthy with
        | .error e2 => (s1, int, .error e2)
        | .ok ft =>
          if literalEq ft Literal.True then
            match interpretStmt fuel body int s1 with
            | (s2, int2, .error e2) => (s2, int2, .error e2)
            | (s2, int2, .ok _) =>
              interpretStmt fuel (.WhileStmt condition body) int2 s2
          else (s1, int, .ok ())
    | .Function name _ _ =>
      match makeFunction int.env st with
      | .error e2 => (s, int, .error e2)
      | .ok callable =>
        (envDefine s int.env name (.Callable (.Function callable)), int, .ok ())
    | .ReturnStmt value =>
      match
        (match value with
         | some v => evaluate fuel v int.env s
         | none => (s, .ok Literal.Nil)) with
      | (s1, .error e2) => (s1, int, .error e2)
      | (s1, .ok eval_value) =>
        (s1, { int with specials := ainsert int.specials "return" eval_value }, .ok ())
    | .Class name methods superclass =>
      let cont := fun (s1 : State) (superclass_value : Option Literal) =>
        let s2 := envDefine s1 int.env name Literal.Nil
        let (s3, new_env) := envEnclose s2 int.env
        let s4 :=
          match superclass_value with
          | some sc => envDefine s3 new_env "super" sc
          | none => s3
        match buildMethods new_env methods [] with
        | .error e2 => (s4, { int with env := new_env }, .error e2)
        | .ok methods_map =>
          let cls := Literal.Class name methods_map superclass_value
          match assignGlobal fuel s4 new_env name cls with
          | .error e2 => (s4, { int with env := new_env }, .error e2)
          | .ok (false, s5) =>
            (s5, { int with env := new_env },
             .error (.err ("Class definition failed for " ++ name)))
          | .ok (true, s5) =>
            match s5.enclosingAt new_env with
            | some parent => (s5, { int with env := parent }, .ok ())
            | none =>
              (s5, { int with env := new_env },
               .error (.panicked "called Option.unwrap on a None value"))
      match superclass with
      | some superclass_expr =>
        match evaluate fuel superclass_expr int.env s with
        | (s1, .error e2) => (s1, int, .error e2)
        | (s1, .ok scv) =>
          match scv with
          | .Class _ _ _ => cont s1 (some scv)
          | _ =>
            (s1, int,
             .error (.err ("Superclass must be a class, not '" ++ scv.to_type ++ "'")))
      | none => cont s none

/-- The statement loop of `Interpreter::interpret`: statements run in
order; the first error aborts the remaining statements.  (The loop itself
never consults `specials`; only `run_function` does, between top-level
body statements.) -/
def interpretList (fuel : Nat) (stmts : List Stmt) (int : Interp) (s : State) :
    State × Interp × Except RunErr Unit :=
  match fuel with
  | 0 => (s, int, .error .fuelOut)
  | fuel + 1 =>
    match stmts with
    | [] => (s, int, .ok ())
    | st :: rest =>
      match interpretStmt fuel st int s with
      | (s1, int1, .error e2) => (s1, int1, .error e2)
      | (s1, int1, .ok _) => interpretList fuel rest int1 s1

end

/-- The run pipeline of the entry point on an already-parsed program:
resolve on a fresh resolver, install the distance table, then interpret
from the global frame; the result is the printed output. -/
def runPipeline (fuel : Nat) (prog : List Stmt) : Except String (List String) :=
  match resolveProgram fuel prog with
  | .error msg => .error msg
  | .ok locals =>
    match interpretList fuel prog { specials := [], env := 0 }
        { initialState with locals := locals } with
    | (s, _, .ok _) => .ok s.output
    | (_, _, .error (.err msg)) => .error msg
    | (_, _, .error (.panicked msg)) => .error ("panic: " ++ msg)
    | (_, _, .error .fuelOut) => .error "embedding: out of fuel"

set_option maxRecDepth 10000
/-- End-to-end example 2 of the spec: `fun make(){ var n = 0;
fun inc(){ n = n + 1; return n; } return inc; } var c = make();
print c(); print c();` as an AST (node ids 1-13, assigned as the parser
would, unique per node). -/
def progMake : List Stmt :=
  [ .Function "make" []
      [ .Var "n" (.LiteralE 1 (.Number 0)),
        .Function "inc" []
          [ .Expression (.Assign 2 "n" (.Binary 3 (.Variable 4 "n") .Plus (.LiteralE 5 (.Number 1)))),
            .ReturnStmt (some (.Variable 6 "n")) ],
        .ReturnStmt (some (.Variable 7 "inc")) ],
    .Var "c" (.Call 8 (.Variable 9 "make") []),
    .Print (.Call 10 (.Variable 11 "c") []) [],
    .Print (.Call 12 (.Variable 13 "c") []) [] ]

/-- A 0-ary function whose body is a single block containing two `return`
statements: `fun f() { { return 1; return 2; } }`. -/
def fnC2 : FunctionImpl :=
  .mk "f" 0 0 []
    [ .Block
        [ .ReturnStmt (some (.LiteralE 1 (.Number 1))),
          .ReturnStmt (some (.LiteralE 2 (.Number 2))) ] ]

/-- A unary `init` method, used as a superclass constructor. -/
def aInit : FunctionImpl := .mk "init" 1 0 ["p"] []

/-- `class A { init(p) {} }`. -/
def classA : Literal := .Class "A" [("init", aInit)] none

/-- `class B : A {}` — no own `init`; the superclass has one of arity 1. -/
def classB : Literal := .Class "B" [] (some classA)

/-- A 0-ary `init` method with an empty body. -/
def eInit : FunctionImpl := .mk "init" 0 0 [] []

/-- An instance of a methodless class, living at slot 0 of the instance
store, plus a one-frame state giving it the field `a = 1` and a global
`x = 0`. -/
def instK : Literal := .Instance (.Class "K" [] none) 0

/-- State for the property-write witnesses. -/
def sC10 : State :=
  { frames := [{ values := [("x", Literal.Number 0)], enclosing := none }]
    instFields := [[("a", Literal.Number 1)]]
    locals := []
    output := [] }

/-- A 0-ary method `m` capturing frame 0. -/
def mM : FunctionImpl := .mk "m" 0 0 [] []

/-- A 0-ary superclass method `sm` capturing frame 0. -/
def mS : FunctionImpl := .mk "sm" 0 0 [] []

/-- `class P { sm() {} }`. -/
def clsP : Literal := .Class "P" [("sm", mS)] none

/-- `class K : P { m() {} }`. -/
def clsK : Literal := .Class "K" [("m", mM)] (some clsP)

/-- A one-frame state whose instance store holds one instance of `K` with
the single field `f = 4`. -/
def sC5 : State :=
  { frames := [{ values := [], enclosing := none }]
    instFields := [[("f", Literal.Number 4)]]
    locals := []
    output := [] }

/-- The instance of `K` as a literal expression. -/
def instObj : Expr := .LiteralE 1 (.Instance clsK 0)

/-- Walk exactly `d` enclosing links from frame `fr`; `none` when a frame
is missing or a root is hit before `d` steps. -/
def walkEnclosing (s : State) : Nat → Nat → Option Nat
  | 0, fr => some fr
  | d + 1, fr =>
    match s.frameAt fr with
    | none => none
    | some f =>
      match f.enclosing with
      | none => none
      | some e => walkEnclosing s d e

/-- The frame `r` is the root of the chain starting at `fr`, reached in
exactly `k` enclosing steps. -/
inductive ReachesRootIn (s : State) : Nat → Nat → Nat → Prop where
  | root (fr : Nat) (f : Frame) (h1 : s.frameAt fr = some f)
      (h2 : f.enclosing = none) : ReachesRootIn s 0 fr fr
  | step (fr e r k : Nat) (f : Frame) (h1 : s.frameAt fr = some f)
      (h2 : f.enclosing = some e) (h3 : ReachesRootIn s k e r) :
      ReachesRootIn s (k + 1) fr r

/-- A concrete three-frame chain: root frame 0 binds `g`, frame 1 binds
`y`, frame 2 binds `z`. -/
def sC7 : State :=
  { frames :=
      [ { values := [("g", Literal.Number 1)], enclosing := none },
        { values := [("y", Literal.Number 2)], enclosing := some 0 },
        { values := [("z", Literal.Number 3)], enclosing := some 1 } ]
    instFields := []
    locals := []
    output := [] }

/-- The native `clock` binding of the global frame. -/
def clockV : Literal := .Callable (.NativeFunction "clock" 0)

/-- C1: closures capture their definition-time environment: `inc`, created
inside the call frame of `make`, keeps reading and writing the `n` binding
of that frame after `make` has returned, so the two calls to `c` print `1`
then `2` — the captured frame's mutation persists across the calls.
Proved by running the full pipeline (resolver, then interpreter) on the
program of end-to-end example 2. -/
theorem closure_captures_definition_env :
    runPipeline 100 progMake = Except.ok ["1", "2"] := rfl

/-- C2 counterexample: the claim says that once a `return` executes, no
further sibling statement in a nested block executes and the call yields
the returned value — so `fun f() { { return 1; return 2; } }` would have
to yield 1.  The code consults the pending-return slot only *between
top-level body statements*: inside the block the second `return` still
executes and overwrites the slot, and the call yields 2, not 1. -/
theorem run_function_executes_block_siblings_after_return :
    (runFunction 100 fnC2 [] 0 initialState).2 = Except.ok (Literal.Number 2) ∧
    (runFunction 100 fnC2 [] 0 initialState).2 ≠ Except.ok (Literal.Number 1) := by
  refine ⟨rfl, fun h => ?_⟩
  rw [show (runFunction 100 fnC2 [] 0 initialState).2 = Except.ok (Literal.Number 2) from rfl] at h
  have h2 : Literal.Number 2 = Literal.Number 1 := Except.ok.inj h
  have h3 : (2 : Int) = 1 := by injection h2
  exact absurd h3 (by decide)

/-- C2 (amended): the pending-return slot is consulted only between the
*top-level* statements of a function body: if executing one top-level body
statement leaves a pending `return` value `v` in the call-local specials,
the remaining top-level body statements are skipped and the call yields
`v` (statements nested *inside* that one statement — e.g. block siblings
after the `return` — are not short-circuited, as the counterexample
shows); if no value is pending the loop simply continues with the rest of
the body, and a body that runs out of statements yields Nil. -/
theorem return_short_circuits_top_level_body (fuel : Nat) (st : Stmt)
    (rest : List Stmt) (int int1 : Interp) (s s1 : State) (v : Literal) :
    (interpretStmt fuel st int s = (s1, int1, Except.ok ()) →
      alookup int1.specials "return" = some v →
      runBody (fuel + 1) (st :: rest) int s = (s1, Except.ok v))
    ∧ (interpretStmt fuel st int s = (s1, int1, Except.ok ()) →
      alookup int1.specials "return" = none →
      runBody (fuel + 1) (st :: rest) int s = runBody fuel rest int1 s1)
    ∧ runBody (fuel + 1) [] int s = (s, Except.ok Literal.Nil) := by
  refine ⟨fun h1 h2 => ?_, fun h1 h2 => ?_, rfl⟩
  · simp only [runBody, h1, h2]
  · simp only [runBody, h1, h2]

/-- C2 witness: a body whose first top-level statement is `return 7`
followed by a `print` statement yields 7 with the `print` never executed
(the final state is unchanged, so nothing was printed); and a body of one
expression statement leaves no pending value and yields Nil. -/
theorem return_short_circuits_top_level_body_witness :
    (runBody 100
      [ Stmt.ReturnStmt (some (.LiteralE 1 (.Number 7))),
        Stmt.Print (.LiteralE 2 (.Str "never")) [] ]
      { specials := [], env := 0 } initialState
    = (initialState, Except.ok (Literal.Number 7)))
    ∧ (runBody 100 [Stmt.Expression (.LiteralE 3 (.Number 0))]
        { specials := [], env := 0 } initialState
    = (initialState, Except.ok Literal.Nil)) :=
  ⟨(return_short_circuits_top_level_body 99
      (Stmt.ReturnStmt (some (.LiteralE 1 (.Number 7))))
      [Stmt.Print (.LiteralE 2 (.Str "never")) []]
      { specials := [], env := 0 }
      { specials := [("return", Literal.Number 7)], env := 0 }
      initialState initialState (Literal.Number 7)).1 rfl rfl,
   ((return_short_circuits_top_level_body 99
      (Stmt.Expression (.LiteralE 3 (.Number 0))) []
      { specials := [], env := 0 } { specials := [], env := 0 }
      initialState initialState Literal.Nil).2.1 rfl rfl).trans
    ((return_short_circuits_top_level_body 98
      (Stmt.Expression (.LiteralE 3 (.Number 0))) []
      { specials := [], env := 0 } { specials := [], env := 0 }
      initialState initialState Literal.Nil).2.2)⟩

/-- C9: binary `+` adds two Numbers, concatenates two Strings, and on a
Number/String mix (in either order) coerces the Number to its decimal text
and concatenates; concretely `"x" + 1` evaluates to the string `"x1"` and
`1 + "x"` to `"1x"`. -/
theorem plus_number_string_coercion :
    (∀ a b : Int, evalBinaryOp (.Number a) .Plus (.Number b) = .ok (.Number (a + b)))
    ∧ (∀ u v : String, evalBinaryOp (.Str u) .Plus (.Str v) = .ok (.Str (u ++ v)))
    ∧ (∀ (a : Int) (v : String),
        evalBinaryOp (.Number a) .Plus (.Str v) = .ok (.Str (numToString a ++ v)))
    ∧ (∀ (u : String) (b : Int),
        evalBinaryOp (.Str u) .Plus (.Number b) = .ok (.Str (u ++ numToString b)))
    ∧ (∀ fuel i1 i2 i3 env s,
        evaluate (fuel + 2) (.Binary i1 (.LiteralE i2 (.Str "x")) .Plus (.LiteralE i3 (.Number 1))) env s
          = (s, .ok (.Str "x1")))
    ∧ (∀ fuel i1 i2 i3 env s,
        evaluate (fuel + 2) (.Binary i1 (.LiteralE i2 (.Number 1)) .Plus (.LiteralE i3 (.Str "x"))) env s
          = (s, .ok (.Str "1x"))) :=
  ⟨fun _ _ => rfl, fun _ _ => rfl, fun _ _ => rfl, fun _ _ => rfl,
   fun _ _ _ _ _ _ => rfl, fun _ _ _ _ _ _ => rfl⟩

/-- C6: the truthiness table.  Number 0 and the empty String are falsey
(`!0` is true) and nonzero Numbers / non-empty Strings are truthy;
Boolean true and false follow their literal sense under both checks; Nil
is truthy under the affirmative check yet not-falsey under the negation
check (`!nil` is false); a Class, Instance or Callable used as a truth
value panics (a fatal abort, never a silent coercion). -/
theorem truthiness_table :
    (Literal.is_falsey (.Number 0) = .ok Literal.True
      ∧ Literal.is_truthy (.Number 0) = .ok Literal.False)
    ∧ (∀ x : Int, x ≠ 0 →
        Literal.is_falsey (.Number x) = .ok Literal.False
          ∧ Literal.is_truthy (.Number x) = .ok Literal.True)
    ∧ (Literal.is_falsey (.Str "") = .ok Literal.True
      ∧ Literal.is_truthy (.Str "") = .ok Literal.False)
    ∧ (∀ u : String, u ≠ "" →
        Literal.is_falsey (.Str u) = .ok Literal.False
          ∧ Literal.is_truthy (.Str u) = .ok Literal.True)
    ∧ (Literal.is_truthy Literal.True = .ok Literal.True
      ∧ Literal.is_falsey Literal.True = .ok Literal.False
      ∧ Literal.is_truthy Literal.False = .ok Literal.False
      ∧ Literal.is_falsey Literal.False = .ok Literal.True)
    ∧ (Literal.is_truthy Literal.Nil = .ok Literal.True
      ∧ Literal.is_falsey Literal.Nil = .ok Literal.False)
    ∧ (∀ fuel i1 i2 env s,
        evaluate (fuel + 2) (.Unary i1 .Bang (.LiteralE i2 (.Number 0))) env s
          = (s, .ok Literal.True))
    ∧ (∀ fuel i1 i2 env s,
        evaluate (fuel + 2) (.Unary i1 .Bang (.LiteralE i2 Literal.Nil)) env s
          = (s, .ok Literal.False))
    ∧ (∀ c, Literal.is_falsey (.Callable c)
          = .error (.panicked "Cannot use callable as falsey value")
        ∧ Literal.is_truthy (.Callable c)
          = .error (.panicked "Cannot use callable as truthy value."))
    ∧ (∀ n ms sc, Literal.is_falsey (.Class n ms sc)
          = .error (.panicked "Cannot use class as falsey value")
        ∧ Literal.is_truthy (.Class n ms sc)
          = .error (.panicked "Cannot use class as truthy value"))
    ∧ (∀ cls fi, Literal.is_falsey (.Instance cls fi)
          = .error (.panicked "Cannot use instance as falsey value")
        ∧ Literal.is_truthy (.Instance cls fi)
          = .error (.panicked "Cannot use instance as truthy value")) := by
  refine ⟨⟨rfl, rfl⟩, fun x hx => ?_, ⟨rfl, rfl⟩, fun u hu => ?_,
    ⟨rfl, rfl, rfl, rfl⟩, ⟨rfl, rfl⟩,
    fun _ _ _ _ _ => rfl, fun _ _ _ _ _ => rfl,
    fun c => ⟨rfl, rfl⟩, fun n ms sc => ⟨rfl, rfl⟩, fun cls fi => ⟨rfl, rfl⟩⟩
  · simp [Literal.is_falsey, Literal.is_truthy, hx]
  · simp [Literal.is_falsey, Literal.is_truthy, hu]

/-- C6 witness: the nonzero-number and non-empty-string clauses of the
truthiness table instantiated at 3 and "a". -/
theorem truthiness_table_witness :
    ((3 : Int) ≠ 0 ∧ Literal.is_falsey (.Number 3) = .ok Literal.False)
    ∧ ("a" ≠ "" ∧ Literal.is_truthy (.Str "a") = .ok Literal.True) := by
  refine ⟨⟨by decide, (truthiness_table.2.1 3 (by decide)).1⟩,
    ⟨by decide, (truthiness_table.2.2.2.1 "a" (by decide)).2⟩⟩

/-- C8: `var x = x;` resolved inside any block — whatever scopes, locals
and function kind the resolver has accumulated — fails with the
self-reference-in-initializer error, because the block pushes a scope, the
declaration marks `x` declared-but-not-defined there, and the initializer
read then finds that flag in the innermost scope.  The same statement
resolved at global scope (the empty scope stack of a fresh resolver)
succeeds, recording no distance at all, since global declarations are not
tracked on the scope stack. -/
theorem self_reference_in_initializer :
    (∀ (scopes : List (List (String × Bool))) (cf : FunctionType)
        (locals : List (Nat × Nat)) (id : Nat),
      Resolver.resolveInternal 10 (.Block [.Var "x" (.Variable id "x")])
          { scopes := scopes, current_function := cf, locals := locals }
        = .error "Can't read local variable on its own initializer")
    ∧ (∀ id : Nat,
      Resolver.resolveMany 10 [.Var "x" (.Variable id "x")] Resolver.new
        = .ok Resolver.new) :=
  ⟨fun _ _ _ _ => rfl, fun _ => rfl⟩

/-- C3 counterexample: the claim says a class call falls back to the
*superclass's* `init` when the class itself has none, so `B()` — where
`B`'s superclass `A` has an `init` of arity 1 — would have to fail the
arity check (0 arguments against arity 1).  The code consults only the
class's own method table for `init`: `B()` succeeds, returns the bare
instance, and allocates no call frame at all (the frame store is
untouched), so no constructor ran. -/
theorem class_call_superclass_init_not_run :
    (evaluate 100 (.Call 1 (.LiteralE 2 classB) []) 0 initialState).2
      = Except.ok (Literal.Instance classB 0)
    ∧ (evaluate 100 (.Call 1 (.LiteralE 2 classB) []) 0 initialState).1.frames
      = initialState.frames :=
  ⟨rfl, rfl⟩

/-- C3 (amended): calling a Class value constructs an Instance with empty
fields; only the class's *own* method table is consulted for `init` (a
superclass `init` is never run and never arity-checked).  When the class
has no own `init` the instance is returned directly — whatever the
superclass holds and however many arguments were passed.  When it has one,
the arity must equal the argument count (error otherwise), and on a match
`init` runs through `run_function` rebound to a fresh frame that binds
`this` to the new instance and encloses the method's captured environment;
its return value is discarded and the call yields the instance. -/
theorem class_call_constructor_semantics (fuel id cid : Nat) (nm : String)
    (ms : List (String × FunctionImpl)) (sc : Option Literal)
    (args : List Expr) (env : Nat) (s : State) :
    (alookup ms "init" = none →
      evaluate (fuel + 2) (.Call id (.LiteralE cid (.Class nm ms sc)) args) env s
        = ((allocInstFields s []).1,
           .ok (.Instance (.Class nm ms sc) s.instFields.length)))
    ∧ (∀ ctor : FunctionImpl, alookup ms "init" = some ctor →
        ctor.arity ≠ args.length →
      evaluate (fuel + 2) (.Call id (.LiteralE cid (.Class nm ms sc)) args) env s
        = ((allocInstFields s []).1,
           .error (.err "Invalid number of arguments in constructor")))
    ∧ (∀ ctor : FunctionImpl, alookup ms "init" = some ctor →
        ctor.arity = args.length →
      evaluate (fuel + 2) (.Call id (.LiteralE cid (.Class nm ms sc)) args) env s
        = (let s2 := (allocInstFields s []).1
           let inst := Literal.Instance (.Class nm ms sc) s.instFields.length
           let s3 := (envEnclose s2 ctor.parent_env).1
           let ctorEnv := (envEnclose s2 ctor.parent_env).2
           let s4 := envDefine s3 ctorEnv "this" inst
           match runFunction (fuel + 1) (ctor.withEnv ctorEnv) args env s4 with
           | (s5, .error e2) => (s5, .error e2)
           | (s5, .ok _) => (s5, .ok inst))) := by
  refine ⟨fun h => ?_, fun ctor h h2 => ?_, fun ctor h h2 => ?_⟩
  · simp only [evaluate, h, allocInstFields]
  · simp only [evaluate, h, allocInstFields]
    simp [h2]
  · simp only [evaluate, h, allocInstFields, envEnclose, envDefine]
    simp [h2]

/-- C3 witness: the three clauses at concrete classes — `C` (no own
`init`, superclass `A` has one of arity 1) returns the bare instance on a
0-argument call; `D` (own `init` of arity 1) rejects a 0-argument call;
`E` (own `init` of arity 0) runs it and yields the instance. -/
theorem class_call_constructor_semantics_witness :
    ((evaluate 100 (.Call 1 (.LiteralE 2 (Literal.Class "C" [] (some classA))) []) 0 initialState).2
       = .ok (.Instance (Literal.Class "C" [] (some classA)) 0))
    ∧ ((evaluate 100 (.Call 3 (.LiteralE 4 (Literal.Class "D" [("init", aInit)] none)) []) 0 initialState).2
       = .error (.err "Invalid number of arguments in constructor"))
    ∧ ((evaluate 100 (.Call 5 (.LiteralE 6 (Literal.Class "E" [("init", eInit)] none)) []) 0 initialState).2
       = .ok (.Instance (Literal.Class "E" [("init", eInit)] none) 0)) := by
  refine ⟨?_, ?_, ?_⟩
  · exact (congrArg Prod.snd
      ((class_call_constructor_semantics 98 1 2 "C" [] (some classA) [] 0 initialState).1
        rfl)).trans rfl
  · exact (congrArg Prod.snd
      ((class_call_constructor_semantics 98 3 4 "D" [("init", aInit)] none [] 0 initialState).2.1
        aInit rfl (by decide))).trans rfl
  · exact (congrArg Prod.snd
      ((class_call_constructor_semantics 98 5 6 "E" [("init", eInit)] none [] 0 initialState).2.2
        eInit rfl rfl)).trans rfl

/-- A field absent from the vector is appended at the end by the Set loop. -/
theorem setField_not_present (fs : List (String × Literal)) (nm : String)
    (v : Literal) (h : alookup fs nm = none) :
    setField fs nm v = fs ++ [(nm, v)] := by
  induction fs with
  | nil => rfl
  | cons p rest ih =>
    obtain ⟨k, w⟩ := p
    by_cases hk : k = nm
    · subst hk
      simp [alookup] at h
    · simp only [alookup, if_neg hk] at h
      simp [setField, hk, ih h]

/-- A field already present is overwritten in place by the Set loop: the
first pair with the name keeps its position, later pairs are untouched. -/
theorem setField_present (pre post : List (String × Literal)) (nm : String)
    (v w : Literal) (h : alookup pre nm = none) :
    setField (pre ++ (nm, w) :: post) nm v = pre ++ (nm, v) :: post := by
  induction pre with
  | nil => simp [setField]
  | cons p rest ih =>
    obtain ⟨k, u⟩ := p
    by_cases hk : k = nm
    · subst hk
      simp [alookup] at h
    · simp only [alookup, if_neg hk] at h
      simp [setField, hk, ih h]

/-- C10: a property write `obj.name = value` on an Instance stores the
value in the instance's field vector — appended when the name is new,
overwritten in place when present — but the Set expression itself
evaluates to Nil; a plain variable assignment, by contrast, evaluates to
the assigned value. -/
theorem set_expression_evaluates_to_nil (fuel id : Nat) (obj valE : Expr)
    (nm : String) (env : Nat) (s s1 s2 : State) (cls : Literal) (fi : Nat)
    (v w : Literal) (fs pre post : List (String × Literal)) :
    (evaluate fuel obj env s = (s1, .ok (.Instance cls fi)) →
      evaluate fuel valE env s1 = (s2, .ok v) →
      evaluate (fuel + 1) (.Set id obj nm valE) env s
        = (setInstFields s2 fi (setField (s2.instAt fi) nm v), .ok Literal.Nil))
    ∧ (alookup fs nm = none → setField fs nm v = fs ++ [(nm, v)])
    ∧ (alookup pre nm = none →
        setField (pre ++ (nm, w) :: post) nm v = pre ++ (nm, v) :: post)
    ∧ (evaluate fuel valE env s = (s1, .ok v) →
        envAssign fuel s1 env nm v id = .ok (true, s2) →
        evaluate (fuel + 1) (.Assign id nm valE) env s = (s2, .ok v)) := by
  refine ⟨fun h1 h2 => ?_, setField_not_present fs nm v,
    setField_present pre post nm v w, fun h1 h2 => ?_⟩
  · simp only [evaluate, h1, h2]
  · simp only [evaluate, h1, h2]

/-- C10 witness: on the concrete state, overwriting the existing field
`a`, appending a fresh field, overwriting in place inside a vector, and a
plain assignment returning its value. -/
theorem set_expression_evaluates_to_nil_witness :
    (evaluate 51 (.Set 3 (.LiteralE 1 instK) "a" (.LiteralE 2 (.Number 5))) 0 sC10
      = ({ sC10 with instFields := [[("a", Literal.Number 5)]] }, .ok Literal.Nil))
    ∧ (setField [("b", Literal.Number 2)] "c" (.Number 3)
        = [("b", Literal.Number 2), ("c", Literal.Number 3)])
    ∧ (setField [("b", Literal.Number 2), ("c", Literal.Number 9)] "c" (.Number 3)
        = [("b", Literal.Number 2), ("c", Literal.Number 3)])
    ∧ (evaluate 51 (.Assign 4 "x" (.LiteralE 5 (.Number 7))) 0 sC10
        = ({ sC10 with frames := [{ values := [("x", Literal.Number 7)], enclosing := none }] },
           .ok (Literal.Number 7))) := by
  refine ⟨?_, ?_, ?_, ?_⟩
  · exact ((set_expression_evaluates_to_nil 50 3 (.LiteralE 1 instK)
      (.LiteralE 2 (.Number 5)) "a" 0 sC10 sC10 sC10 (.Class "K" [] none) 0
      (.Number 5) Literal.Nil [] [] []).1 rfl rfl).trans rfl
  · exact ((set_expression_evaluates_to_nil 0 0 (.LiteralE 0 Literal.Nil)
      (.LiteralE 0 Literal.Nil) "c" 0 sC10 sC10 sC10 Literal.Nil 0
      (.Number 3) Literal.Nil [("b", Literal.Number 2)] [] []).2.1 rfl)
  · exact ((set_expression_evaluates_to_nil 0 0 (.LiteralE 0 Literal.Nil)
      (.LiteralE 0 Literal.Nil) "c" 0 sC10 sC10 sC10 Literal.Nil 0
      (.Number 3) (.Number 9) [] [("b", Literal.Number 2)] []).2.2.1 rfl)
  · exact ((set_expression_evaluates_to_nil 50 4 (.LiteralE 0 Literal.Nil)
      (.LiteralE 5 (.Number 7)) "x" 0 sC10 sC10
      { sC10 with frames := [{ values := [("x", Literal.Number 7)], enclosing := none }] }
      Literal.Nil 0 (.Number 7) Literal.Nil [] [] []).2.2.2 rfl rfl)

/-- C5: a property read `obj.name` on an Instance searches the instance's
own fields first; failing that, the class's method table, then the
superclass's method table (one level only); a found method is returned as
a copy of the Function value whose captured environment is a fresh frame —
binding `this` to the instance — enclosing the method's original captured
environment; a name absent from the fields and both method tables is an
undefined-property error, and a property read on a non-Instance value is a
type error. -/
theorem get_property_lookup (fuel id : Nat) (obj : Expr) (nm : String)
    (env : Nat) (s s1 : State) (cn : String)
    (ms : List (String × FunctionImpl)) (sc : Option Literal) (fi : Nat) :
    (∀ v, evaluate fuel obj env s = (s1, .ok (.Instance (.Class cn ms sc) fi)) →
      alookup (s1.instAt fi) nm = some v →
      evaluate (fuel + 1) (.Get id obj nm) env s = (s1, .ok v))
    ∧ (∀ m, evaluate fuel obj env s = (s1, .ok (.Instance (.Class cn ms sc) fi)) →
      alookup (s1.instAt fi) nm = none → alookup ms nm = some m →
      evaluate (fuel + 1) (.Get id obj nm) env s
        = (envDefine (envEnclose s1 m.parent_env).1 (envEnclose s1 m.parent_env).2
             "this" (.Instance (.Class cn ms sc) fi),
           .ok (.Callable (.Function (m.withEnv (envEnclose s1 m.parent_env).2)))))
    ∧ (∀ scn sms ssc m,
      evaluate fuel obj env s
          = (s1, .ok (.Instance (.Class cn ms (some (.Class scn sms ssc))) fi)) →
      alookup (s1.instAt fi) nm = none → alookup ms nm = none →
      alookup sms nm = some m →
      evaluate (fuel + 1) (.Get id obj nm) env s
        = (envDefine (envEnclose s1 m.parent_env).1 (envEnclose s1 m.parent_env).2
             "this" (.Instance (.Class cn ms (some (.Class scn sms ssc))) fi),
           .ok (.Callable (.Function (m.withEnv (envEnclose s1 m.parent_env).2)))))
    ∧ (evaluate fuel obj env s = (s1, .ok (.Instance (.Class cn ms none) fi)) →
      alookup (s1.instAt fi) nm = none → alookup ms nm = none →
      evaluate (fuel + 1) (.Get id obj nm) env s
        = (s1, .error (.err ("No field named '" ++ nm ++ "' on this instance"))))
    ∧ (∀ scn sms ssc,
      evaluate fuel obj env s
          = (s1, .ok (.Instance (.Class cn ms (some (.Class scn sms ssc))) fi)) →
      alookup (s1.instAt fi) nm = none → alookup ms nm = none →
      alookup sms nm = none →
      evaluate (fuel + 1) (.Get id obj nm) env s
        = (s1, .error (.err ("No field named '" ++ nm ++ "' on this instance"))))
    ∧ (∀ v, evaluate fuel obj env s = (s1, .ok v) →
      (∀ cls2 fi2, v ≠ .Instance cls2 fi2) →
      evaluate (fuel + 1) (.Get id obj nm) env s
        = (s1, .error (.err ("Cannot access property on type '" ++ v.toStr ++ "'")))) := by
  refine ⟨fun v h h1 => ?_, fun m h h1 h2 => ?_, fun scn sms ssc m h h1 h2 h3 => ?_,
    fun h h1 h2 => ?_, fun scn sms ssc h h1 h2 h3 => ?_, fun v h hne => ?_⟩
  · simp only [evaluate, h, h1]
  · simp only [evaluate, h, h1, h2]
  · simp only [evaluate, h, h1, h2, h3]
  · simp only [evaluate, h, h1, h2]
  · simp only [evaluate, h, h1, h2, h3]
  · cases v with
    | Instance cls2 fi2 => exact absurd rfl (hne cls2 fi2)
    | Number x => simp only [evaluate, h]
    | Str u => simp only [evaluate, h]
    | True => simp only [evaluate, h]
    | False => simp only [evaluate, h]
    | Nil => simp only [evaluate, h]
    | Callable c => simp only [evaluate, h]
    | Class n2 ms2 sc2 => simp only [evaluate, h]

/-- C5 witness: on the concrete instance of `K`, reading the field `f`
yields 4; reading `m` yields the bound copy of `K.m` whose captured
environment is the fresh frame 1 binding `this`; reading `sm` yields the
bound copy of `P.sm`; reading an absent name is the undefined-property
error; and reading a property off the number 7 is the type error. -/
theorem get_property_lookup_witness :
    (evaluate 51 (.Get 2 instObj "f") 0 sC5 = (sC5, .ok (.Number 4)))
    ∧ ((evaluate 51 (.Get 3 instObj "m") 0 sC5).2
        = .ok (.Callable (.Function (.mk "m" 0 1 [] []))))
    ∧ ((evaluate 51 (.Get 3 instObj "m") 0 sC5).1.frames
        = [{ values := [], enclosing := none },
           { values := [("this", .Instance clsK 0)], enclosing := some 0 }])
    ∧ ((evaluate 51 (.Get 4 instObj "sm") 0 sC5).2
        = .ok (.Callable (.Function (.mk "sm" 0 1 [] []))))
    ∧ ((evaluate 51 (.Get 5 instObj "zz") 0 sC5).2
        = .error (.err "No field named 'zz' on this instance"))
    ∧ ((evaluate 51 (.Get 6 (.LiteralE 7 (.Number 7)) "f") 0 sC5).2
        = .error (.err "Cannot access property on type '7'")) := by
  refine ⟨?_, ?_, ?_, ?_, ?_, ?_⟩
  · exact ((get_property_lookup 50 2 instObj "f" 0 sC5 sC5 "K" [("m", mM)]
      (some clsP) 0).1 (.Number 4) rfl rfl).trans rfl
  · exact (congrArg Prod.snd ((get_property_lookup 50 3 instObj "m" 0 sC5 sC5 "K"
      [("m", mM)] (some clsP) 0).2.1 mM rfl rfl rfl)).trans rfl
  · exact (congrArg (fun p => p.1.frames)
      ((get_property_lookup 50 3 instObj "m" 0 sC5 sC5 "K"
        [("m", mM)] (some clsP) 0).2.1 mM rfl rfl rfl)).trans rfl
  · exact (congrArg Prod.snd ((get_property_lookup 50 4 instObj "sm" 0 sC5 sC5 "K"
      [("m", mM)] (some clsP) 0).2.2.1 "P" [("sm", mS)] none mS rfl rfl rfl rfl)).trans rfl
  · exact (congrArg Prod.snd ((get_property_lookup 50 5 instObj "zz" 0 sC5 sC5 "K"
      [("m", mM)] (some clsP) 0).2.2.2.2.1 "P" [("sm", mS)] none rfl rfl rfl rfl)).trans rfl
  · exact (congrArg Prod.snd ((get_property_lookup 50 6 (.LiteralE 7 (.Number 7)) "f"
      0 sC5 sC5 "K" [("m", mM)] (some clsP) 0).2.2.2.2.2 (.Number 7) rfl
      (fun _ _ h => Literal.noConfusion h))).trans rfl

/-- A recorded distance `d` makes `get_internal` read exactly the frame
`d` links up the chain. -/
theorem getInternal_walks (s : State) (name : String) :
    ∀ (d fr fr' fuel : Nat) (f' : Frame),
      walkEnclosing s d fr = some fr' → s.frameAt fr' = some f' → d < fuel →
      getInternal fuel s fr name (some d) = .ok (alookup f'.values name) := by
  intro d
  induction d with
  | zero =>
    intro fr fr' fuel f' hw hf hlt
    have hfr : fr' = fr := by simpa [walkEnclosing] using hw.symm
    subst hfr
    cases fuel with
    | zero => omega
    | succ fl => simp [getInternal, hf]
  | succ d ih =>
    intro fr fr' fuel f' hw hf hlt
    simp only [walkEnclosing] at hw
    cases hfr : s.frameAt fr with
    | none => simp [hfr] at hw
    | some f =>
      cases henc : f.enclosing with
      | none => simp [hfr, henc] at hw
      | some e =>
        simp only [hfr, henc] at hw
        cases fuel with
        | zero => omega
        | succ fl =>
          simp only [getInternal, hfr, henc]
          exact ih e fr' fl f' hw hf (by omega)

/-- A recorded distance `d` makes `assign_internal` write exactly the
frame `d` links up the chain, reporting success. -/
theorem assignInternal_walks (s : State) (name : String) (v : Literal) :
    ∀ (d fr fr' fuel : Nat) (f' : Frame),
      walkEnclosing s d fr = some fr' → s.frameAt fr' = some f' → d < fuel →
      assignInternal fuel s fr name v (some d)
        = .ok (true, envDefine s fr' name v) := by
  intro d
  induction d with
  | zero =>
    intro fr fr' fuel f' hw hf hlt
    have hfr : fr' = fr := by simpa [walkEnclosing] using hw.symm
    subst hfr
    cases fuel with
    | zero => omega
    | succ fl => simp [assignInternal, hf]
  | succ d ih =>
    intro fr fr' fuel f' hw hf hlt
    simp only [walkEnclosing] at hw
    cases hfr : s.frameAt fr with
    | none => simp [hfr] at hw
    | some f =>
      cases henc : f.enclosing with
      | none => simp [hfr, henc] at hw
      | some e =>
        simp only [hfr, henc] at hw
        cases fuel with
        | zero => omega
        | succ fl =>
          simp only [assignInternal, hfr, henc]
          rw [ih e fr' fl f' hw hf (by omega)]

/-- Asking `get_internal` to walk a distance that exceeds the chain depth
panics (the internal-consistency abort), rather than returning a
user-level error. -/
theorem getInternal_past_root (s : State) (name : String) :
    ∀ (j d fr fr'' fuel : Nat) (f'' : Frame),
      walkEnclosing s j fr = some fr'' → s.frameAt fr'' = some f'' →
      f''.enclosing = none → j < d → j < fuel →
      getInternal fuel s fr name (some d)
        = .error (.panicked "Tried to resolve a variable that was defined deeper than the current environment depth") := by
  intro j
  induction j with
  | zero =>
    intro d fr fr'' fuel f'' hw hf henc hlt hfuel
    have hfr : fr'' = fr := by simpa [walkEnclosing] using hw.symm
    subst hfr
    cases fuel with
    | zero => omega
    | succ fl =>
      cases d with
      | zero => omega
      | succ d2 => simp [getInternal, hf, henc]
  | succ j ih =>
    intro d fr fr'' fuel f'' hw hf henc hlt hfuel
    simp only [walkEnclosing] at hw
    cases hfr : s.frameAt fr with
    | none => simp [hfr] at hw
    | some f =>
      cases henc2 : f.enclosing with
      | none => simp [hfr, henc2] at hw
      | some e =>
        simp only [hfr, henc2] at hw
        cases fuel with
        | zero => omega
        | succ fl =>
          cases d with
          | zero => omega
          | succ d2 =>
            simp only [getInternal, hfr, henc2]
            exact ih d2 e fr'' fl f'' hw hf henc (by omega) (by omega)

/-- The assignment analogue: walking past the root panics. -/
theorem assignInternal_past_root (s : State) (name : String) (v : Literal) :
    ∀ (j d fr fr'' fuel : Nat) (f'' : Frame),
      walkEnclosing s j fr = some fr'' → s.frameAt fr'' = some f'' →
      f''.enclosing = none → j < d → j < fuel →
      assignInternal fuel s fr name v (some d)
        = .error (.panicked "Tried to resolve a variable that was defined deeper than the current environment depth") := by
  intro j
  induction j with
  | zero =>
    intro d fr fr'' fuel f'' hw hf henc hlt hfuel
    have hfr : fr'' = fr := by simpa [walkEnclosing] using hw.symm
    subst hfr
    cases fuel with
    | zero => omega
    | succ fl =>
      cases d with
      | zero => omega
      | succ d2 => simp [assignInternal, hf, henc]
  | succ j ih =>
    intro d fr fr'' fuel f'' hw hf henc hlt hfuel
    simp only [walkEnclosing] at hw
    cases hfr : s.frameAt fr with
    | none => simp [hfr] at hw
    | some f =>
      cases henc2 : f.enclosing with
      | none => simp [hfr, henc2] at hw
      | some e =>
        simp only [hfr, henc2] at hw
        cases fuel with
        | zero => omega
        | succ fl =>
          cases d with
          | zero => omega
          | succ d2 =>
            simp only [assignInternal, hfr, henc2]
            rw [ih d2 e fr'' fl f'' hw hf henc (by omega) (by omega)]

/-- A distance-less `get_internal` reads the root frame of the chain. -/
theorem getInternal_none_root (s : State) (name : String) :
    ∀ (k fr r : Nat), ReachesRootIn s k fr r →
      ∀ (fuel : Nat) (f_r : Frame), s.frameAt r = some f_r → k < fuel →
      getInternal fuel s fr name none = .ok (alookup f_r.values name) := by
  intro k fr r hrr
  induction hrr with
  | root fr f h1 h2 =>
    intro fuel f_r hfr hlt
    have hf : f_r = f := by rw [h1] at hfr; exact (Option.some.inj hfr).symm
    subst hf
    cases fuel with
    | zero => omega
    | succ fl => simp [getInternal, h1, h2]
  | step fr e r k f h1 h2 _ ih =>
    intro fuel f_r hfr hlt
    cases fuel with
    | zero => omega
    | succ fl =>
      simp only [getInternal, h1, h2]
      exact ih fl f_r hfr (by omega)

/-- A distance-less `assign_internal` writes the root frame of the chain,
reporting whether the name was already bound there. -/
theorem assignInternal_none_root (s : State) (name : String) (v : Literal) :
    ∀ (k fr r : Nat), ReachesRootIn s k fr r →
      ∀ (fuel : Nat) (f_r : Frame), s.frameAt r = some f_r → k < fuel →
      assignInternal fuel s fr name v none
        = .ok ((alookup f_r.values name).isSome, envDefine s r name v) := by
  intro k fr r hrr
  induction hrr with
  | root fr f h1 h2 =>
    intro fuel f_r hfr hlt
    have hf : f_r = f := by rw [h1] at hfr; exact (Option.some.inj hfr).symm
    subst hf
    cases fuel with
    | zero => omega
    | succ fl => simp [assignInternal, h1, h2]
  | step fr e r k f h1 h2 _ ih =>
    intro fuel f_r hfr hlt
    cases fuel with
    | zero => omega
    | succ fl =>
      simp only [assignInternal, h1, h2]
      exact ih fl f_r hfr (by omega)

/-- C7: environment access with a recorded distance `d` walks exactly `d`
enclosing links and reads/writes the binding in that frame only; asked to
walk past the root it aborts with the fatal internal-consistency panic,
not a user-level runtime error; and a distance-less lookup or assignment
goes directly to the root frame of the chain, skipping every intermediate
frame. -/
theorem environment_distance_semantics :
    (∀ (s : State) (name : String) (d fr fr' fuel : Nat) (f' : Frame),
      walkEnclosing s d fr = some fr' → s.frameAt fr' = some f' → d < fuel →
      getInternal fuel s fr name (some d) = .ok (alookup f'.values name))
    ∧ (∀ (s : State) (name : String) (v : Literal) (d fr fr' fuel : Nat) (f' : Frame),
      walkEnclosing s d fr = some fr' → s.frameAt fr' = some f' → d < fuel →
      assignInternal fuel s fr name v (some d)
        = .ok (true, envDefine s fr' name v))
    ∧ (∀ (s : State) (name : String) (j d fr fr'' fuel : Nat) (f'' : Frame),
      walkEnclosing s j fr = some fr'' → s.frameAt fr'' = some f'' →
      f''.enclosing = none → j < d → j < fuel →
      getInternal fuel s fr name (some d)
        = .error (.panicked "Tried to resolve a variable that was defined deeper than the current environment depth"))
    ∧ (∀ (s : State) (name : String) (v : Literal) (j d fr fr'' fuel : Nat) (f'' : Frame),
      walkEnclosing s j fr = some fr'' → s.frameAt fr'' = some f'' →
      f''.enclosing = none → j < d → j < fuel →
      assignInternal fuel s fr name v (some d)
        = .error (.panicked "Tried to resolve a variable that was defined deeper than the current environment depth"))
    ∧ (∀ (s : State) (name : String) (k fr r : Nat), ReachesRootIn s k fr r →
      ∀ (fuel : Nat) (f_r : Frame), s.frameAt r = some f_r → k < fuel →
      getInternal fuel s fr name none = .ok (alookup f_r.values name))
    ∧ (∀ (s : State) (name : String) (v : Literal) (k fr r : Nat),
      ReachesRootIn s k fr r →
      ∀ (fuel : Nat) (f_r : Frame), s.frameAt r = some f_r → k < fuel →
      assignInternal fuel s fr name v none
        = .ok ((alookup f_r.values name).isSome, envDefine s r name v)) :=
  ⟨fun s name => getInternal_walks s name,
   fun s name v => assignInternal_walks s name v,
   fun s name => getInternal_past_root s name,
   fun s name v => assignInternal_past_root s name v,
   fun s name => getInternal_none_root s name,
   fun s name v => assignInternal_none_root s name v⟩

/-- C7 witness: on the three-frame chain, distance 1 from frame 2 reads
and writes `y` in frame 1 only; a distance of 7 panics; a distance-less
lookup and assignment from frame 2 hit the root frame 0 directly. -/
theorem environment_distance_semantics_witness :
    (getInternal 5 sC7 2 "y" (some 1) = .ok (some (.Number 2)))
    ∧ (assignInternal 5 sC7 2 "y" (.Number 9) (some 1)
        = .ok (true,
            { sC7 with frames :=
                [ { values := [("g", Literal.Number 1)], enclosing := none },
                  { values := [("y", Literal.Number 9)], enclosing := some 0 },
                  { values := [("z", Literal.Number 3)], enclosing := some 1 } ] }))
    ∧ (getInternal 5 sC7 1 "q" (some 7)
        = .error (.panicked "Tried to resolve a variable that was defined deeper than the current environment depth"))
    ∧ (assignInternal 5 sC7 1 "q" (.Number 9) (some 7)
        = .error (.panicked "Tried to resolve a variable that was defined deeper than the current environment depth"))
    ∧ (getInternal 5 sC7 2 "g" none = .ok (some (.Number 1)))
    ∧ (assignInternal 5 sC7 2 "g" (.Number 4) none
        = .ok (true,
            { sC7 with frames :=
                [ { values := [("g", Literal.Number 4)], enclosing := none },
                  { values := [("y", Literal.Number 2)], enclosing := some 0 },
                  { values := [("z", Literal.Number 3)], enclosing := some 1 } ] })) := by
  have hroot : ReachesRootIn sC7 2 2 0 :=
    ReachesRootIn.step 2 1 0 1 { values := [("z", Literal.Number 3)], enclosing := some 1 }
      rfl rfl
      (ReachesRootIn.step 1 0 0 0 { values := [("y", Literal.Number 2)], enclosing := some 0 }
        rfl rfl
        (ReachesRootIn.root 0 { values := [("g", Literal.Number 1)], enclosing := none }
          rfl rfl))
  refine ⟨?_, ?_, ?_, ?_, ?_, ?_⟩
  · exact (environment_distance_semantics.1 sC7 "y" 1 2 1 5
      { values := [("y", Literal.Number 2)], enclosing := some 0 }
      rfl rfl (by omega)).trans rfl
  · exact (environment_distance_semantics.2.1 sC7 "y" (.Number 9) 1 2 1 5
      { values := [("y", Literal.Number 2)], enclosing := some 0 }
      rfl rfl (by omega)).trans rfl
  · exact environment_distance_semantics.2.2.1 sC7 "q" 1 7 1 0 5
      { values := [("g", Literal.Number 1)], enclosing := none }
      rfl rfl rfl (by omega) (by omega)
  · exact environment_distance_semantics.2.2.2.1 sC7 "q" (.Number 9) 1 7 1 0 5
      { values := [("g", Literal.Number 1)], enclosing := none }
      rfl rfl rfl (by omega) (by omega)
  · exact (environment_distance_semantics.2.2.2.2.1 sC7 "g" 2 2 0 hroot 5
      { values := [("g", Literal.Number 1)], enclosing := none }
      rfl (by omega)).trans rfl
  · exact (environment_distance_semantics.2.2.2.2.2 sC7 "g" (.Number 4) 2 2 0 hroot 5
      { values := [("g", Literal.Number 1)], enclosing := none }
      rfl (by omega)).trans rfl

/-- C4: executing a class declaration first binds the class name to Nil in
the *current* frame, builds the method table in an extra enclosed frame —
holding a `super` binding when a superclass is present, and captured as
the methods' `parent_env` — and then rebinds the name in the global (root)
frame.  At top level the Nil pre-binding sits in the root, so the global
rebinding finds the name and succeeds; nested inside a block the Nil
pre-binding sits in the block frame, the root insert reports the name as
fresh, and execution aborts with the class-definition-failed error (the
pre-bound Nil still visible in the block frame of the final state, and the
attempted write in the root). -/
theorem class_decl_global_rebinding :
    (interpretList 100 [.Class "A" [] none] { specials := [], env := 0 } initialState
      = ({ frames :=
             [ { values := [("clock", clockV), ("A", Literal.Class "A" [] none)],
                 enclosing := none },
               { values := [], enclosing := some 0 } ]
           instFields := [], locals := [], output := [] },
         { specials := [], env := 0 }, .ok ()))
    ∧ (interpretList 100 [.Block [.Class "A" [] none]] { specials := [], env := 0 }
        initialState
      = ({ frames :=
             [ { values := [("clock", clockV), ("A", Literal.Class "A" [] none)],
                 enclosing := none },
               { values := [("A", Literal.Nil)], enclosing := some 0 },
               { values := [], enclosing := some 1 } ]
           instFields := [], locals := [], output := [] },
         { specials := [], env := 0 },
         .error (.err "Class definition failed for A")))
    ∧ (interpretList 100
         [ .Class "A" [] none,
           .Class "B" [.Function "m" [] []] (some (.Variable 1 "A")) ]
         { specials := [], env := 0 } initialState
      = ({ frames :=
             [ { values :=
                   [ ("clock", clockV),
                     ("A", Literal.Class "A" [] none),
                     ("B", Literal.Class "B" [("m", .mk "m" 0 2 [] [])]
                        (some (Literal.Class "A" [] none))) ],
                 enclosing := none },
               { values := [], enclosing := some 0 },
               { values := [("super", Literal.Class "A" [] none)], enclosing := some 0 } ]
           instFields := [], locals := [], output := [] },
         { specials := [], env := 0 }, .ok ())) :=
  ⟨rfl, rfl, rfl⟩
